import Mathlib

/-!
Verification of the PID-based thermal control engine of the
`sonic-platform-modules-nexthop` platform driver
(`common/sonic_platform/thermal_actions.py`).

Python floats are modelled as exact rationals (`ℚ`); dictionaries are
modelled as association lists; Python exceptions are modelled with
`Except String`.
-/

/-- Round a rational to the nearest integer, ties to even
(the semantics of Python's `round` on exact values). -/
def roundHalfEven (x : ℚ) : ℤ :=
  let f := Int.floor x
  let r := x - f
  if r < 1/2 then f
  else if r > 1/2 then f + 1
  else if f % 2 = 0 then f else f + 1

/-- Model of Python's `round(x, 3)`. -/
def round3 (x : ℚ) : ℚ := (roundHalfEven (x * 1000) : ℚ) / 1000

/-- State of `PIDController` (`thermal_actions.py`): gains, output limits
and the mutable fields `_integral`, `_prev_error`, `_first_run`. -/
structure PIDController where
  interval : ℚ
  kp : ℚ
  ki : ℚ
  kd : ℚ
  output_min : ℚ
  output_max : ℚ
  integral : ℚ
  prev_error : ℚ
  first_run : Bool
deriving Repr, DecidableEq

namespace PIDController

/-- Model of `PIDController.__init__`: the integral is pre-seeded to
`(output_min + output_max) / 2 / ki`.  Python float division by zero
raises `ZeroDivisionError`, modelled as an `Except.error`. -/
def init (interval kp ki kd output_min output_max : ℚ) :
    Except String PIDController :=
  if ki = 0 then Except.error "ZeroDivisionError: float division by zero"
  else Except.ok
    { interval := interval
      kp := kp
      ki := ki
      kd := kd
      output_min := output_min
      output_max := output_max
      integral := (output_min + output_max) / 2 / ki
      prev_error := 0
      first_run := true }

/-- Computation details returned by `compute_detailed` (the `details`
dictionary, each numeric entry passed through `round(_, 3)`). -/
structure Details where
  P : ℚ
  I : ℚ
  D : ℚ
  raw_output : ℚ
  saturated_output : ℚ
  frozen_integral : Bool
deriving Repr, DecidableEq

/-- Model of `PIDController.compute_detailed`: returns the saturated
output, the details dictionary, and the updated controller state. -/
def compute_detailed (c : PIDController) (error : ℚ) :
    ℚ × Details × PIDController :=
  let proportional := error
  let derivative := if c.first_run then (0:ℚ) else (error - c.prev_error) / c.interval
  let integral := c.integral + error * c.interval
  let output := c.kp * proportional + c.ki * integral + c.kd * derivative
  let saturated_output := max c.output_min (min c.output_max output)
  let should_update_integral : Prop :=
    (output ≤ c.output_max ∨ error < 0) ∧ (output ≥ c.output_min ∨ error > 0)
  let newIntegral := if should_update_integral then integral else c.integral
  let c2 : PIDController :=
    { c with
      integral := newIntegral
      prev_error := error
      first_run := false }
  let details : Details :=
    { P := round3 proportional
      I := round3 newIntegral
      D := round3 derivative
      raw_output := round3 output
      saturated_output := round3 saturated_output
      frozen_integral := if should_update_integral then false else true }
  (saturated_output, details, c2)

end PIDController

/-! ## Fans and the fail-safe wrapper (`set_all_fan_speeds`, `execute`) -/

/-- Outcome of one `Fan.set_speed` call: returns `True`, returns `False`
(fan not present), or raises an exception. -/
inductive FanResult
  | ok
  | absent
  | throws
deriving Repr, DecidableEq

/-- A fan, modelled by the behaviour of its `set_speed` method as a
function of the commanded speed. -/
structure Fan where
  behavior : ℚ → FanResult

/-- Loop body of `set_all_fan_speeds`: calls `set_speed(speed)` on each
fan in order and records each call as `(index, speed)`.  A thrown
exception is logged and immediately re-raised, stopping the loop. -/
def setFansLoop (fans : List Fan) (speed : ℚ) (i : Nat) :
    List (Nat × ℚ) × Except String Unit :=
  match fans with
  | [] => ([], Except.ok ())
  | f :: rest =>
    match f.behavior speed with
    | FanResult.throws => ([(i, speed)], Except.error "set_speed exception")
    | _ =>
      let r := setFansLoop rest speed (i + 1)
      ((i, speed) :: r.1, r.2)

/-- Model of `set_all_fan_speeds`: raises `FanException` on an empty fan
list, otherwise iterates over the fans.  The first component is the
trace of `set_speed` calls actually issued. -/
def set_all_fan_speeds (fans : List Fan) (speed : ℚ) :
    List (Nat × ℚ) × Except String Unit :=
  if fans.isEmpty then ([], Except.error "No fans available to set speed")
  else setFansLoop fans speed 0

/-- Maximum fan speed constant `FAN_MAX_SPEED` (100 %). -/
def FAN_MAX_SPEED : ℚ := 100

/-- Model of `ThermalControlAlgorithmAction.execute`: run the tick body
(`_execute_raise_on_error`, abstracted as an arbitrary trace-producing
computation over the fans); on any exception, command all fans to
`FAN_MAX_SPEED` via `set_all_fan_speeds` and re-raise the original
error (or the fail-safe pass's own error if that pass itself raises). -/
def executeWithFailsafe (fans : List Fan)
    (tick : List Fan → List (Nat × ℚ) × Except String Unit) :
    List (Nat × ℚ) × Except String Unit :=
  match tick fans with
  | (calls, Except.ok ()) => (calls, Except.ok ())
  | (calls, Except.error e) =>
    let fs := set_all_fan_speeds fans FAN_MAX_SPEED
    (calls ++ fs.1,
     match fs.2 with
     | Except.ok () => Except.error e
     | Except.error e2 => Except.error e2)

/-! ## Per-domain error selection (`_compute_domain_pid_output`) -/

/-- A thermal sensor as seen by `_compute_domain_pid_output`:
`get_temperature()` and `get_pid_setpoint()` may each return `None`. -/
structure Thermal where
  name : String
  temperature : Option ℚ
  pid_setpoint : Option ℚ
deriving Repr, DecidableEq

/-- Loop of `_compute_domain_pid_output`: skip sensors whose temperature
or setpoint is `None`; track the sensor with the strictly largest
`error = temperature - setpoint - extra_setpoint_margin`. -/
def findMaxErrorLoop (margin : ℚ) :
    List Thermal → Option (ℚ × Thermal) → Option (ℚ × Thermal)
  | [], acc => acc
  | t :: rest, acc =>
    match t.temperature with
    | none => findMaxErrorLoop margin rest acc
    | some temp =>
      match t.pid_setpoint with
      | none => findMaxErrorLoop margin rest acc
      | some sp =>
        let error := temp - sp - margin
        let acc2 := match acc with
          | none => some (error, t)
          | some (me, mt) => if error > me then some (error, t) else some (me, mt)
        findMaxErrorLoop margin rest acc2

/-- Model of `_compute_domain_pid_output` for one domain: feed the
largest per-sensor error to the domain's PID controller; raise
`ValueError` when no sensor in the domain is usable this tick. -/
def compute_domain_pid_output (c : PIDController) (margin : ℚ)
    (thermals : List Thermal) :
    Except String (ℚ × Thermal × PIDController.Details × PIDController) :=
  match findMaxErrorLoop margin thermals none with
  | none => Except.error "No valid thermal found for domain"
  | some (maxError, th) =>
    let r := c.compute_detailed maxError
    Except.ok (r.1, th, r.2.1, r.2.2)

/-- Errors of the sensors of a domain that have both a temperature and a
setpoint this tick (the sensors the loop does not skip). -/
def usableErrors (margin : ℚ) (thermals : List Thermal) : List ℚ :=
  thermals.filterMap fun t =>
    match t.temperature, t.pid_setpoint with
    | some temp, some sp => some (temp - sp - margin)
    | _, _ => none

/-! ## Sensor-name normalisation (`_process_sensor_name`) -/

/-- Model of `re.match(r"ASIC [pt]", name)`: `re.match` anchors at the
start of the string only, so this is a prefix test. -/
def matchesASICpt (s : String) : Bool :=
  match s.data with
  | 'A' :: 'S' :: 'I' :: 'C' :: ' ' :: c :: _ => c = 'p' || c = 't'
  | _ => false

/-- Longest leading run of decimal digits of a character list, together
with the remainder (the greedy semantics of a trailing `\d+`). -/
def takeDigits : List Char → List Char × List Char
  | [] => ([], [])
  | c :: rest =>
    if c.isDigit then
      let r := takeDigits rest
      (c :: r.1, r.2)
    else ([], c :: rest)

/-- Model of `re.match(r"Transceiver (Port\d+)", name)`, returning the
captured group when the pattern matches a prefix of the name (there is
no `$` anchor in the source pattern). -/
def matchTransceiverPort (s : String) : Option String :=
  match s.data with
  | 'T' :: 'r' :: 'a' :: 'n' :: 's' :: 'c' :: 'e' :: 'i' :: 'v' :: 'e' :: 'r' :: ' '
      :: 'P' :: 'o' :: 'r' :: 't' :: rest =>
    match rest with
    | [] => none
    | c :: _ =>
      if c.isDigit then
        some (String.mk ('P' :: 'o' :: 'r' :: 't' :: (takeDigits rest).1))
      else none
  | _ => none

/-- Model of `_process_sensor_name`: `none` means the sensor is filtered
out of telemetry. -/
def process_sensor_name (s : String) : Option String :=
  if matchesASICpt s then none
  else
    match matchTransceiverPort s with
    | some captured => some captured
    | none => some s

/-! ## Configuration validation (`validate_json`) -/

/-- Per-domain PID configuration (`pid_domains` entry of the policy
JSON). -/
structure PidDomainCfg where
  KP : ℚ
  KI : ℚ
  KD : ℚ
  extra_setpoint_margin : ℚ := 0
deriving Repr, DecidableEq

/-- Fan speed floor constant `FAN_MIN_SPEED` (30 %). -/
def FAN_MIN_SPEED : ℚ := 30

/-- Model of `ThermalControlAlgorithmAction.validate_json`.  The three
JSON dictionaries are modelled as association lists; Python dictionary
truthiness is emptiness, and `dict.get` is `List.lookup`.  The interval
check is the source's `if not self._constants.get('interval')`, which
fires exactly on a missing interval or on the falsy number `0`. -/
def validate_json (pidDomains : List (String × PidDomainCfg))
    (constants : List (String × ℚ)) (fanLimits : List (String × ℚ)) :
    Except String Unit :=
  if pidDomains.isEmpty then
    Except.error "No PID domains defined in JSON policy file"
  else if constants.isEmpty then
    Except.error "No constants defined in JSON policy file"
  else if fanLimits.isEmpty then
    Except.error "No fan limits defined in JSON policy file"
  else
    match fanLimits.lookup "min", fanLimits.lookup "max" with
    | some minLimit, some maxLimit =>
      if minLimit > maxLimit then
        Except.error "Min fan limit is greater than max fan limit"
      else if minLimit < FAN_MIN_SPEED ∨ maxLimit > FAN_MAX_SPEED then
        Except.error "Fan limits are out of range"
      else
        match constants.lookup "interval" with
        | none => Except.error "Interval must be defined in JSON policy file"
        | some v =>
          if v = 0 then Except.error "Interval must be defined in JSON policy file"
          else Except.ok ()
    | _, _ => Except.error "No min/max fan limits defined in JSON policy file"

/-! ## CSV trimming (`CsvLogger._check_and_trim_file`, `_trim_file`) -/

/-- Constant `CSV_MAX_FILE_SIZE_MB` (50). -/
def CSV_MAX_FILE_SIZE_MB : Nat := 50

/-- Byte size of a file given as the list of its lines (as returned by
`readlines`, each line carrying its newline). -/
def fileSizeBytes (lines : List String) : Nat :=
  (lines.map String.length).sum

/-- Model of `CsvLogger._trim_file`: keep the header plus the newest
`max(2, int(total * 0.8)) - 1` data lines; a file of at most one line is
left unchanged.  `int(total * 0.8)` is modelled exactly as
`total * 4 / 5` in natural-number arithmetic. -/
def trim_file : List String → List String
  | [] => []
  | header :: rest =>
    let lines := header :: rest
    if lines.length ≤ 1 then lines
    else
      let total := lines.length
      let linesToKeep := max 2 (total * 4 / 5)
      let dataLinesToKeep := linesToKeep - 1
      let newerDataLines :=
        if dataLinesToKeep > 0 then lines.drop (total - dataLinesToKeep) else []
      header :: newerDataLines

/-- Model of `CsvLogger._check_and_trim_file`: trim only when the file
size is at least `CSV_MAX_FILE_SIZE_MB` MiB. -/
def check_and_trim_file (lines : List String) : List String :=
  if fileSizeBytes lines < CSV_MAX_FILE_SIZE_MB * 1024 * 1024 then lines
  else trim_file lines

/-! ## Grouping thermals by domain (`_group_thermals_by_domain`) -/

/-- PID-membership capability of a thermal: the attribute
`is_controlled_by_pid` may be missing entirely, may return `False`, or
may return `True` together with `get_pid_domain()` (possibly `None`). -/
inductive PidAttr
  | noAttr
  | notControlled
  | controlled (domain : Option String)
deriving Repr, DecidableEq

/-- A thermal as seen by `_group_thermals_by_domain`. -/
structure GThermal where
  name : String
  attr : PidAttr
deriving Repr, DecidableEq

/-- Warning text logged for a thermal lacking the capability attribute. -/
def warnText (t : GThermal) : String :=
  "Thermal " ++ t.name ++ " does not define is_controlled_by_pid()"

/-- Append a thermal to its domain's group, preserving Python dict
insertion order. -/
def addToGroup (groups : List (String × List GThermal)) (d : String)
    (t : GThermal) : List (String × List GThermal) :=
  match groups with
  | [] => [(d, [t])]
  | (d2, ts) :: rest =>
    if d2 = d then (d2, ts ++ [t]) :: rest
    else (d2, ts) :: addToGroup rest d t

/-- Loop of `_group_thermals_by_domain`: warn on thermals without the
capability attribute, skip thermals not controlled by PID, and add a
controlled thermal to its group only when its domain is truthy and has a
configured controller. -/
def groupLoop (configured : List String) (ts : List GThermal)
    (groups : List (String × List GThermal)) :
    List String × List (String × List GThermal) :=
  match ts with
  | [] => ([], groups)
  | t :: rest =>
    match t.attr with
    | PidAttr.noAttr =>
      let r := groupLoop configured rest groups
      (warnText t :: r.1, r.2)
    | PidAttr.notControlled => groupLoop configured rest groups
    | PidAttr.controlled none => groupLoop configured rest groups
    | PidAttr.controlled (some d) =>
      if d ≠ "" ∧ d ∈ configured then groupLoop configured rest (addToGroup groups d t)
      else groupLoop configured rest groups

/-- Model of `_group_thermals_by_domain`: returns the warnings logged
and either the grouping or the `ValueError` raised.  `configured` is the
key set of `self._pidControllers`. -/
def group_thermals_by_domain (configured : List String)
    (thermals : List GThermal) :
    List String × Except String (List (String × List GThermal)) :=
  let r := groupLoop configured thermals []
  (r.1,
   if r.2.isEmpty then Except.error "No thermals available for PID control"
   else if r.2.any (fun g => g.2.isEmpty) then Except.error "Domain has no thermals"
   else Except.ok r.2)

/-- Does a thermal map to a configured domain (attribute present,
controlled, truthy domain with a controller)? -/
def mapsToConfigured (configured : List String) (t : GThermal) : Bool :=
  match t.attr with
  | PidAttr.controlled (some d) => !(d = "") && configured.contains d
  | _ => false

/-! ## Helper lemmas -/

theorem roundHalfEven_intCast (n : ℤ) : roundHalfEven (n : ℚ) = n := by
  unfold roundHalfEven
  norm_num

theorem round3_of_mul_int (x : ℚ) (n : ℤ) (h : x * 1000 = (n : ℚ)) :
    round3 x = (n : ℚ) / 1000 := by
  unfold round3
  rw [h, roundHalfEven_intCast]

theorem round3_self (x : ℚ) (n : ℤ) (h : x * 1000 = (n : ℚ)) :
    round3 x = x := by
  rw [round3_of_mul_int x n h, ← h]
  ring

/-- C2: on every `compute_detailed` call with error `e`, with
`I' = integral + e·dt` and `u = KP·e + KI·I' + KD·D`, the stored
integral becomes `I'` exactly when `(u ≤ max ∨ e < 0) ∧ (u ≥ min ∨ e > 0)`
and is otherwise left exactly unchanged, while `prev_error` is always
updated to `e`. -/
theorem C2_integral_update (c : PIDController) (e : ℚ) :
    ((c.compute_detailed e).2.2.integral =
      if (c.kp * e + c.ki * (c.integral + e * c.interval) +
            c.kd * (if c.first_run then (0:ℚ) else (e - c.prev_error) / c.interval)
              ≤ c.output_max ∨ e < 0) ∧
         (c.kp * e + c.ki * (c.integral + e * c.interval) +
            c.kd * (if c.first_run then (0:ℚ) else (e - c.prev_error) / c.interval)
              ≥ c.output_min ∨ e > 0)
       then c.integral + e * c.interval else c.integral)
  ∧ (c.compute_detailed e).2.2.prev_error = e := by
  exact ⟨rfl, rfl⟩

/-- C3 counterexample: with interval 5, KP=1, KI=0.1, KD=2, limits
[40,100] (seeded integral 700), the first `compute_detailed` call with
error 3 returns raw output 74.5, not the 73 the claim states. -/
theorem C3_counterexample :
    (PIDController.init 5 1 (1/10) 2 40 100).map
        (fun c => (c.compute_detailed 3).2.1.raw_output) = Except.ok (149/2)
    ∧ (149/2 : ℚ) ≠ 73 := by
  have h1 : PIDController.init 5 1 (1/10) 2 40 100 = Except.ok
      { interval := 5, kp := 1, ki := 1/10, kd := 2, output_min := 40,
        output_max := 100, integral := 700, prev_error := 0, first_run := true } := by
    simp only [PIDController.init]
    norm_num
  refine ⟨?_, by norm_num⟩
  rw [h1]
  simp only [Except.map]
  have h745 : round3 ((149:ℚ)/2) = 149/2 := round3_self (149/2) 74500 (by norm_num)
  simp only [PIDController.compute_detailed]
  norm_num [h745]

/-- C3 amended: with interval 5, KP=1, KI=0.1, KD=2 and limits [40,100]
(seeded integral 700), the first `compute_detailed` call with error 3
returns P=3, D=0, retained integral 715 (an integral contribution of
KI·715 = 71.5), raw output u = 74.5, saturated output y = 74.5, and
frozen_integral = false. -/
theorem C3_amended :
    ∃ c : PIDController,
      PIDController.init 5 1 (1/10) 2 40 100 = Except.ok c ∧
      c.integral = 700 ∧
      (c.compute_detailed 3).2.1.P = 3 ∧
      (c.compute_detailed 3).2.1.D = 0 ∧
      (c.compute_detailed 3).2.2.integral = 715 ∧
      (1/10 : ℚ) * (c.compute_detailed 3).2.2.integral = 143/2 ∧
      (c.compute_detailed 3).2.1.raw_output = 149/2 ∧
      (c.compute_detailed 3).1 = 149/2 ∧
      (c.compute_detailed 3).2.1.saturated_output = 149/2 ∧
      (c.compute_detailed 3).2.1.frozen_integral = false := by
  refine ⟨{ interval := 5, kp := 1, ki := 1/10, kd := 2, output_min := 40,
            output_max := 100, integral := 700, prev_error := 0,
            first_run := true }, ?_, rfl, ?_, ?_, ?_, ?_, ?_, ?_, ?_, ?_⟩
  · simp only [PIDController.init]
    norm_num
  all_goals
    simp only [PIDController.compute_detailed]
    norm_num [round3_self 3 3000 (by norm_num), round3_self 0 0 (by norm_num),
      round3_self 715 715000 (by norm_num),
      round3_self ((149:ℚ)/2) 74500 (by norm_num), max_def, min_def]

/-- C5: immediately after construction (with KI ≠ 0, since the seeding
division raises on KI = 0) the integral equals `(min+max)/2 / KI`;
concretely with min=40, max=100, KI=2 the integral is 35 and the first
`compute_detailed` call with error 0 returns saturated output 70. -/
theorem C5_seeding :
    (∀ interval kp ki kd omin omax : ℚ, ki ≠ 0 →
      PIDController.init interval kp ki kd omin omax =
        Except.ok { interval := interval, kp := kp, ki := ki, kd := kd,
                    output_min := omin, output_max := omax,
                    integral := (omin + omax) / 2 / ki, prev_error := 0,
                    first_run := true })
  ∧ (∀ interval kp kd : ℚ,
      ∃ c : PIDController,
        PIDController.init interval kp 2 kd 40 100 = Except.ok c ∧
        c.integral = 35 ∧ (c.compute_detailed 0).1 = 70) := by
  constructor
  · intro interval kp ki kd omin omax hki
    simp [PIDController.init, hki]
  · intro interval kp kd
    refine ⟨{ interval := interval, kp := kp, ki := 2, kd := kd,
              output_min := 40, output_max := 100, integral := 35,
              prev_error := 0, first_run := true }, ?_, rfl, ?_⟩
    · simp only [PIDController.init]
      norm_num
    · simp only [PIDController.compute_detailed]
      norm_num [max_def, min_def]

/-- C5 witness: a closed instance of the seeding invariant at
interval=5, KP=1, KI=2, KD=2, limits [40,100]. -/
theorem C5_seeding_witness :
    (2:ℚ) ≠ 0 ∧
    PIDController.init 5 1 2 2 40 100 =
      Except.ok { interval := 5, kp := 1, ki := 2, kd := 2, output_min := 40,
                  output_max := 100, integral := (40 + 100) / 2 / 2,
                  prev_error := 0, first_run := true } :=
  ⟨by norm_num, C5_seeding.1 5 1 2 2 40 100 (by norm_num)⟩

/-- C6 counterexample: constructing a PID controller with KI = 0 does
not succeed — the seeding division raises ZeroDivisionError — so the
integral is never seeded to 0. -/
theorem C6_counterexample :
    PIDController.init 5 1 0 2 40 100 =
      Except.error "ZeroDivisionError: float division by zero" ∧
    ¬ ∃ c : PIDController,
        PIDController.init 5 1 0 2 40 100 = Except.ok c ∧ c.integral = 0 := by
  constructor
  · simp [PIDController.init]
  · rintro ⟨c, hc, -⟩
    simp [PIDController.init] at hc

/-- C6 amended: constructing a PID controller with KI = 0 always raises
ZeroDivisionError; the seeding division is not guarded against KI = 0. -/
theorem C6_amended (interval kp kd omin omax : ℚ) :
    PIDController.init interval kp 0 kd omin omax =
      Except.error "ZeroDivisionError: float division by zero" := by
  simp [PIDController.init]

/-- Helper: when no fan throws at the given speed, the fan loop succeeds
and every fan receives a `set_speed` call. -/
theorem setFansLoop_no_throw (fans : List Fan) (speed : ℚ) :
    ∀ i : Nat, (∀ f ∈ fans, f.behavior speed ≠ FanResult.throws) →
      (setFansLoop fans speed i).2 = Except.ok () ∧
      ∀ j, j < fans.length → (i + j, speed) ∈ (setFansLoop fans speed i).1 := by
  induction fans with
  | nil =>
    intro i _
    exact ⟨rfl, by intro j hj; simp at hj⟩
  | cons f rest ih =>
    intro i h
    have hf : f.behavior speed ≠ FanResult.throws := h f (by simp)
    have hrest : ∀ g ∈ rest, g.behavior speed ≠ FanResult.throws := by
      intro g hg
      exact h g (by simp [hg])
    obtain ⟨ihOk, ihMem⟩ := ih (i + 1) hrest
    cases hb : f.behavior speed with
    | throws => exact absurd hb hf
    | ok =>
      refine ⟨by simp [setFansLoop, hb, ihOk], ?_⟩
      intro j hj
      cases j with
      | zero => simp [setFansLoop, hb]
      | succ k =>
        have hk : k < rest.length := by
          simpa [Nat.succ_lt_succ_iff] using hj
        have hmem := ihMem k hk
        have harith : i + (k + 1) = i + 1 + k := by omega
        simp only [setFansLoop, hb]
        right
        rw [harith]
        exact hmem
    | absent =>
      refine ⟨by simp [setFansLoop, hb, ihOk], ?_⟩
      intro j hj
      cases j with
      | zero => simp [setFansLoop, hb]
      | succ k =>
        have hk : k < rest.length := by
          simpa [Nat.succ_lt_succ_iff] using hj
        have hmem := ihMem k hk
        have harith : i + (k + 1) = i + 1 + k := by omega
        simp only [setFansLoop, hb]
        right
        rw [harith]
        exact hmem

/-- C1 counterexample: a fan whose `set_speed` raises both during the
tick and during the fail-safe pass stops the fail-safe loop, so the
remaining fan (index 1) is never commanded to 100% and the error that
propagates is the fail-safe pass's, not a state where all fans were
driven to maximum. -/
theorem C1_counterexample :
    (executeWithFailsafe
        [Fan.mk (fun _ => FanResult.throws), Fan.mk (fun _ => FanResult.ok)]
        (fun fs => set_all_fan_speeds fs 50)).1 = [(0, 50), (0, 100)] ∧
    (1, FAN_MAX_SPEED) ∉
      (executeWithFailsafe
        [Fan.mk (fun _ => FanResult.throws), Fan.mk (fun _ => FanResult.ok)]
        (fun fs => set_all_fan_speeds fs 50)).1 ∧
    (executeWithFailsafe
        [Fan.mk (fun _ => FanResult.throws), Fan.mk (fun _ => FanResult.ok)]
        (fun fs => set_all_fan_speeds fs 50)).2 =
      Except.error "set_speed exception" := by
  refine ⟨?_, ?_, ?_⟩ <;>
    simp [executeWithFailsafe, set_all_fan_speeds, setFansLoop, FAN_MAX_SPEED]

/-- C1 amended: on any tick error the fail-safe handler commands fans to
100% in order, stopping at the first fan whose `set_speed` raises during
the fail-safe pass itself; when no fan raises at 100% (and the fan list
is nonempty), every fan is commanded to 100% and the original error is
re-raised. -/
theorem C1_amended (fans : List Fan)
    (tick : List Fan → List (Nat × ℚ) × Except String Unit) (e : String)
    (hTick : (tick fans).2 = Except.error e)
    (hNoThrow : ∀ f ∈ fans, f.behavior FAN_MAX_SPEED ≠ FanResult.throws)
    (hNonempty : fans ≠ []) :
    (∀ j, j < fans.length → (j, FAN_MAX_SPEED) ∈ (executeWithFailsafe fans tick).1) ∧
    (executeWithFailsafe fans tick).2 = Except.error e := by
  obtain ⟨loopOk, loopMem⟩ := setFansLoop_no_throw fans FAN_MAX_SPEED 0 hNoThrow
  have hne : fans.isEmpty = false := by
    cases fans with
    | nil => exact absurd rfl hNonempty
    | cons f rest => rfl
  rcases htf : tick fans with ⟨calls, res⟩
  rw [htf] at hTick
  simp only at hTick
  subst hTick
  constructor
  · intro j hj
    have := loopMem j hj
    simp only [executeWithFailsafe, htf, set_all_fan_speeds, hne, if_false,
      Bool.false_eq_true, List.mem_append]
    right
    simpa using this
  · simp only [executeWithFailsafe, htf, set_all_fan_speeds, hne,
      Bool.false_eq_true, if_false, loopOk]

/-- C1 witness: a concrete failing tick over two healthy fans; both fans
are commanded to 100% and the original error re-raises. -/
theorem C1_amended_witness :
    ((0, FAN_MAX_SPEED) ∈
        (executeWithFailsafe
          [Fan.mk (fun _ => FanResult.ok), Fan.mk (fun _ => FanResult.absent)]
          (fun _ => ([], Except.error "boom"))).1 ∧
      (1, FAN_MAX_SPEED) ∈
        (executeWithFailsafe
          [Fan.mk (fun _ => FanResult.ok), Fan.mk (fun _ => FanResult.absent)]
          (fun _ => ([], Except.error "boom"))).1) ∧
    (executeWithFailsafe
        [Fan.mk (fun _ => FanResult.ok), Fan.mk (fun _ => FanResult.absent)]
        (fun _ => ([], Except.error "boom"))).2 = Except.error "boom" := by
  have hnothrow : ∀ f ∈ ([Fan.mk (fun _ => FanResult.ok),
      Fan.mk (fun _ => FanResult.absent)] : List Fan),
      f.behavior FAN_MAX_SPEED ≠ FanResult.throws := by
    intro f hf
    rcases List.mem_cons.mp hf with rfl | hf2
    · intro h
      exact FanResult.noConfusion h
    · rcases List.mem_cons.mp hf2 with rfl | hf3
      · intro h
        exact FanResult.noConfusion h
      · simp at hf3
  exact ⟨⟨(C1_amended _ _ "boom" rfl hnothrow (by simp)).1 0 (by norm_num),
          (C1_amended _ _ "boom" rfl hnothrow (by simp)).1 1 (by norm_num)⟩,
         (C1_amended _ _ "boom" rfl hnothrow (by simp)).2⟩

/-- C7 counterexample: the source pattern `Transceiver (Port\d+)` has no
end anchor, so a name where it matches only a prefix is still rewritten:
"Transceiver Port3 hot" becomes "Port3" instead of passing through
unchanged as the claim states. -/
theorem C7_counterexample :
    process_sensor_name "Transceiver Port3 hot" = some "Port3" ∧
    some "Port3" ≠ some "Transceiver Port3 hot" := by
  constructor
  · decide
  · decide

/-- C7 amended: names matching `^ASIC [pt]` (a prefix match) are
dropped; names where `Transceiver (Port\d+)` matches a prefix — not
only the whole name — are rewritten to the captured `PortX`; all other
names pass through unchanged.  Concretely "ASIC p0" and "ASIC t1" are
dropped, "Transceiver Port3" becomes "Port3", "CPU" stays "CPU", and any
name "Transceiver Port3<tail>" whose tail does not start with a digit
also becomes "Port3". -/
theorem C7_amended :
    process_sensor_name "ASIC p0" = none ∧
    process_sensor_name "ASIC t1" = none ∧
    process_sensor_name "Transceiver Port3" = some "Port3" ∧
    process_sensor_name "CPU" = some "CPU" ∧
    (∀ s : String, (∀ ch, s.data.head? = some ch → ¬ ch.isDigit) →
      process_sensor_name ("Transceiver Port3" ++ s) = some "Port3") := by
  refine ⟨by decide, by decide, by decide, by decide, ?_⟩
  intro s hs
  have hdata : ("Transceiver Port3" ++ s).data =
      'T' :: 'r' :: 'a' :: 'n' :: 's' :: 'c' :: 'e' :: 'i' :: 'v' :: 'e' :: 'r' :: ' ' ::
      'P' :: 'o' :: 'r' :: 't' :: '3' :: s.data := by
    rw [String.data_append]
    rfl
  have htake : takeDigits s.data = ([], s.data) := by
    cases hsd : s.data with
    | nil => rfl
    | cons ch tail =>
      have : ¬ ch.isDigit := hs ch (by rw [hsd]; rfl)
      simp [takeDigits, this]
  have hA : matchesASICpt ("Transceiver Port3" ++ s) = false := by
    unfold matchesASICpt
    rw [hdata]
    rfl
  have hT : matchTransceiverPort ("Transceiver Port3" ++ s) = some "Port3" := by
    unfold matchTransceiverPort
    rw [hdata]
    show some (String.mk ('P' :: 'o' :: 'r' :: 't' :: (takeDigits ('3' :: s.data)).1)) =
      some "Port3"
    rw [show takeDigits ('3' :: s.data) = ('3' :: (takeDigits s.data).1, (takeDigits s.data).2)
      from rfl]
    rw [htake]
  unfold process_sensor_name
  rw [hA, hT]
  rfl

/-- C7 witness: a concrete prefix-only match. -/
theorem C7_amended_witness :
    process_sensor_name ("Transceiver Port3" ++ " hot") = some "Port3" :=
  C7_amended.2.2.2.2 " hot"
    (by
      intro ch hch
      have : ch = ' ' := by
        rw [show (" hot").data = ' ' :: ['h', 'o', 't'] from rfl] at hch
        simpa using hch.symm
      rw [this]
      decide)

/-- Helper: full characterisation of the max-error selection loop of
`_compute_domain_pid_output`, generalised over the accumulator. -/
theorem findMaxErrorLoop_spec (margin : ℚ) (ts : List Thermal) :
    ∀ acc : Option (ℚ × Thermal),
      (findMaxErrorLoop margin ts acc = none ↔
        acc = none ∧ usableErrors margin ts = []) ∧
      (∀ me th, findMaxErrorLoop margin ts acc = some (me, th) →
        (∀ e ∈ usableErrors margin ts, e ≤ me) ∧
        (∀ ae at2, acc = some (ae, at2) → ae ≤ me) ∧
        (acc = some (me, th) ∨
          (th ∈ ts ∧ ∃ tp sp, th.temperature = some tp ∧
            th.pid_setpoint = some sp ∧ me = tp - sp - margin))) := by
  induction ts with
  | nil =>
    intro acc
    constructor
    · simp [findMaxErrorLoop, usableErrors]
    · intro me th h
      simp only [findMaxErrorLoop] at h
      refine ⟨by simp [usableErrors], ?_, Or.inl h⟩
      intro ae at2 hacc
      have heq : (me, th) = (ae, at2) := by
        have := h.symm.trans hacc
        simpa using this
      rw [show ae = me from (Prod.mk.injEq _ _ _ _ ▸ heq).1.symm]
  | cons t rest ih =>
    intro acc
    rcases ht : t.temperature with _ | tp
    · have hred : ∀ a, findMaxErrorLoop margin (t :: rest) a =
          findMaxErrorLoop margin rest a := by
        intro a
        simp [findMaxErrorLoop, ht]
      have hue : usableErrors margin (t :: rest) = usableErrors margin rest := by
        simp [usableErrors, List.filterMap_cons, ht]
      constructor
      · rw [hred, hue]
        exact (ih acc).1
      · intro me th h
        rw [hred] at h
        obtain ⟨b1, b2, b3⟩ := (ih acc).2 me th h
        refine ⟨by rw [hue]; exact b1, b2, ?_⟩
        rcases b3 with h2 | ⟨hmem, hrest⟩
        · exact Or.inl h2
        · exact Or.inr ⟨List.mem_cons_of_mem _ hmem, hrest⟩
    · rcases hsp : t.pid_setpoint with _ | sp
      · have hred : ∀ a, findMaxErrorLoop margin (t :: rest) a =
            findMaxErrorLoop margin rest a := by
          intro a
          simp [findMaxErrorLoop, ht, hsp]
        have hue : usableErrors margin (t :: rest) = usableErrors margin rest := by
          simp [usableErrors, List.filterMap_cons, ht, hsp]
        constructor
        · rw [hred, hue]
          exact (ih acc).1
        · intro me th h
          rw [hred] at h
          obtain ⟨b1, b2, b3⟩ := (ih acc).2 me th h
          refine ⟨by rw [hue]; exact b1, b2, ?_⟩
          rcases b3 with h2 | ⟨hmem, hrest⟩
          · exact Or.inl h2
          · exact Or.inr ⟨List.mem_cons_of_mem _ hmem, hrest⟩
      · have hue : usableErrors margin (t :: rest) =
            (tp - sp - margin) :: usableErrors margin rest := by
          simp [usableErrors, List.filterMap_cons, ht, hsp]
        rcases acc with _ | ⟨ae, at2⟩
        · have hred : findMaxErrorLoop margin (t :: rest) none =
              findMaxErrorLoop margin rest (some (tp - sp - margin, t)) := by
            simp [findMaxErrorLoop, ht, hsp]
          constructor
          · rw [hred, hue]
            constructor
            · intro hnone
              exact absurd ((ih _).1.mp hnone).1 (by simp)
            · rintro ⟨-, h2⟩
              exact absurd h2 (by simp)
          · intro me th h
            rw [hred] at h
            obtain ⟨b1, b2, b3⟩ := (ih _).2 me th h
            have herr : tp - sp - margin ≤ me := b2 _ t rfl
            refine ⟨?_, by intro ae at2 hacc; exact absurd hacc (by simp), ?_⟩
            · rw [hue]
              intro e he
              rcases List.mem_cons.mp he with rfl | he2
              · exact herr
              · exact b1 e he2
            · rcases b3 with h2 | ⟨hmem, hrest⟩
              · have heq : tp - sp - margin = me ∧ t = th := by
                  simpa using h2
                refine Or.inr ⟨?_, tp, sp, ?_, ?_, heq.1.symm⟩
                · rw [← heq.2]
                  exact List.mem_cons_self _ _
                · rw [← heq.2]
                  exact ht
                · rw [← heq.2]
                  exact hsp
              · exact Or.inr ⟨List.mem_cons_of_mem _ hmem, hrest⟩
        · by_cases hgt : tp - sp - margin > ae
          · have hred : findMaxErrorLoop margin (t :: rest) (some (ae, at2)) =
                findMaxErrorLoop margin rest (some (tp - sp - margin, t)) := by
              simp [findMaxErrorLoop, ht, hsp, hgt]
            constructor
            · rw [hred, hue]
              constructor
              · intro hnone
                exact absurd ((ih _).1.mp hnone).1 (by simp)
              · rintro ⟨h1, -⟩
                exact absurd h1 (by simp)
            · intro me th h
              rw [hred] at h
              obtain ⟨b1, b2, b3⟩ := (ih _).2 me th h
              have herr : tp - sp - margin ≤ me := b2 _ t rfl
              refine ⟨?_, ?_, ?_⟩
              · rw [hue]
                intro e he
                rcases List.mem_cons.mp he with rfl | he2
                · exact herr
                · exact b1 e he2
              · intro ae2 at3 hacc
                have heq : ae = ae2 ∧ at2 = at3 := by
                  simpa using hacc
                rw [← heq.1]
                exact le_trans (le_of_lt hgt) herr
              · rcases b3 with h2 | ⟨hmem, hrest⟩
                · have heq : tp - sp - margin = me ∧ t = th := by
                    simpa using h2
                  refine Or.inr ⟨?_, tp, sp, ?_, ?_, heq.1.symm⟩
                  · rw [← heq.2]
                    exact List.mem_cons_self _ _
                  · rw [← heq.2]
                    exact ht
                  · rw [← heq.2]
                    exact hsp
                · exact Or.inr ⟨List.mem_cons_of_mem _ hmem, hrest⟩
          · have hred : findMaxErrorLoop margin (t :: rest) (some (ae, at2)) =
                findMaxErrorLoop margin rest (some (ae, at2)) := by
              simp [findMaxErrorLoop, ht, hsp, hgt]
            constructor
            · rw [hred, hue]
              constructor
              · intro hnone
                exact absurd ((ih _).1.mp hnone).1 (by simp)
              · rintro ⟨h1, -⟩
                exact absurd h1 (by simp)
            · intro me th h
              rw [hred] at h
              obtain ⟨b1, b2, b3⟩ := (ih _).2 me th h
              have hae : ae ≤ me := b2 ae at2 rfl
              have herr : tp - sp - margin ≤ me :=
                le_trans (not_lt.mp hgt) hae
              refine ⟨?_, ?_, ?_⟩
              · rw [hue]
                intro e he
                rcases List.mem_cons.mp he with rfl | he2
                · exact herr
                · exact b1 e he2
              · intro ae2 at3 hacc
                have heq : ae = ae2 ∧ at2 = at3 := by
                  simpa using hacc
                rw [← heq.1]
                exact hae
              · rcases b3 with h2 | ⟨hmem, hrest⟩
                · exact Or.inl h2
                · exact Or.inr ⟨List.mem_cons_of_mem _ hmem, hrest⟩

/-- C4: in each domain the PID input error is the maximum over the
domain's sensors having both a temperature and a setpoint of
`temperature - setpoint - extra_margin`; sensors missing either value
are silently skipped, and the computation raises exactly when no usable
sensor remains. -/
theorem C4_domain_error_selection (c : PIDController) (margin : ℚ)
    (thermals : List Thermal) :
    (compute_domain_pid_output c margin thermals =
        Except.error "No valid thermal found for domain" ↔
      usableErrors margin thermals = []) ∧
    (∀ me th, findMaxErrorLoop margin thermals none = some (me, th) →
      (me ∈ usableErrors margin thermals ∧
        ∀ e ∈ usableErrors margin thermals, e ≤ me) ∧
      (th ∈ thermals ∧ ∃ tp sp, th.temperature = some tp ∧
        th.pid_setpoint = some sp ∧ me = tp - sp - margin) ∧
      compute_domain_pid_output c margin thermals =
        Except.ok ((c.compute_detailed me).1, th, (c.compute_detailed me).2.1,
          (c.compute_detailed me).2.2)) := by
  have spec := findMaxErrorLoop_spec margin thermals none
  constructor
  · constructor
    · intro h
      rcases hr : findMaxErrorLoop margin thermals none with _ | ⟨me, th⟩
      · exact (spec.1.mp hr).2
      · rw [compute_domain_pid_output, hr] at h
        exact absurd h (by simp)
    · intro h
      have hr : findMaxErrorLoop margin thermals none = none := spec.1.mpr ⟨rfl, h⟩
      rw [compute_domain_pid_output, hr]
  · intro me th hr
    obtain ⟨b1, -, b3⟩ := spec.2 me th hr
    rcases b3 with h2 | ⟨hmem, tp, sp, htp, hsp, hme⟩
    · exact absurd h2 (by simp)
    · refine ⟨⟨?_, b1⟩, ⟨hmem, tp, sp, htp, hsp, hme⟩, ?_⟩
      · rw [usableErrors, List.mem_filterMap]
        exact ⟨th, hmem, by rw [htp, hsp, hme]⟩
      · rw [compute_domain_pid_output, hr]

/-- C4 witness: a domain with one unplugged sensor and two usable ones;
the loop selects the usable sensor with the larger error (10). -/
theorem C4_witness :
    ((10:ℚ) ∈ usableErrors 0
        [⟨"t0", none, some 1⟩, ⟨"t1", some 50, some 40⟩, ⟨"t2", some 45, some 40⟩] ∧
      ∀ e ∈ usableErrors 0
        [⟨"t0", none, some 1⟩, ⟨"t1", some 50, some 40⟩, ⟨"t2", some 45, some 40⟩],
        e ≤ 10) ∧
    ((⟨"t1", some 50, some 40⟩ : Thermal) ∈
        [⟨"t0", none, some 1⟩, ⟨"t1", some 50, some 40⟩, ⟨"t2", some 45, some 40⟩] ∧
      ∃ tp sp, (⟨"t1", some 50, some 40⟩ : Thermal).temperature = some tp ∧
        (⟨"t1", some 50, some 40⟩ : Thermal).pid_setpoint = some sp ∧
        (10:ℚ) = tp - sp - 0) ∧
    compute_domain_pid_output
        { interval := 5, kp := 1, ki := 1, kd := 0, output_min := 40,
          output_max := 100, integral := 70, prev_error := 0, first_run := true }
        0
        [⟨"t0", none, some 1⟩, ⟨"t1", some 50, some 40⟩, ⟨"t2", some 45, some 40⟩] =
      Except.ok
        ((({ interval := 5, kp := 1, ki := 1, kd := 0, output_min := 40,
              output_max := 100, integral := 70, prev_error := 0,
              first_run := true } : PIDController).compute_detailed 10).1,
         ⟨"t1", some 50, some 40⟩,
         (({ interval := 5, kp := 1, ki := 1, kd := 0, output_min := 40,
              output_max := 100, integral := 70, prev_error := 0,
              first_run := true } : PIDController).compute_detailed 10).2.1,
         (({ interval := 5, kp := 1, ki := 1, kd := 0, output_min := 40,
              output_max := 100, integral := 70, prev_error := 0,
              first_run := true } : PIDController).compute_detailed 10).2.2) :=
  (C4_domain_error_selection
      { interval := 5, kp := 1, ki := 1, kd := 0, output_min := 40,
        output_max := 100, integral := 70, prev_error := 0, first_run := true }
      0
      [⟨"t0", none, some 1⟩, ⟨"t1", some 50, some 40⟩, ⟨"t2", some 45, some 40⟩]).2
    10 ⟨"t1", some 50, some 40⟩
    (by norm_num [findMaxErrorLoop])

/-- C8 counterexample: a configuration whose `constants.interval` is the
negative number −5 passes `validate_json` — the source check is the
truthiness test `if not self._constants.get('interval')`, which a
negative number satisfies. -/
theorem C8_counterexample :
    validate_json [("cpu", ⟨1, 1, 1, 0⟩)] [("interval", -5)]
      [("min", 40), ("max", 100)] = Except.ok () := by
  simp [validate_json, List.lookup]
  norm_num [FAN_MIN_SPEED, FAN_MAX_SPEED]

/-- C8 amended: `validate_json` rejects a configuration whose interval
is missing or zero (Python-falsy), but a negative interval passes
validation when the rest of the configuration is valid. -/
theorem C8_amended :
    (∀ (pd : List (String × PidDomainCfg)) (cs fl : List (String × ℚ)),
      (cs.lookup "interval" = none ∨ cs.lookup "interval" = some 0) →
      validate_json pd cs fl ≠ Except.ok ()) ∧
    (∀ v : ℚ, v < 0 →
      validate_json [("cpu", ⟨1, 1, 1, 0⟩)] [("interval", v)]
        [("min", 40), ("max", 100)] = Except.ok ()) := by
  constructor
  · intro pd cs fl h
    unfold validate_json
    split
    · simp
    split
    · simp
    split
    · simp
    split
    · rename_i mn mx heq
      split
      · simp
      split
      · simp
      rcases h with h | h
      · rw [h]
        simp
      · rw [h]
        simp
    · simp
  · intro v hv
    simp [validate_json, List.lookup, hv.ne]
    norm_num [FAN_MIN_SPEED, FAN_MAX_SPEED]

/-- C8 witness: a configuration with no interval key is rejected. -/
theorem C8_amended_witness :
    (([("foo", (3:ℚ))] : List (String × ℚ)).lookup "interval" = none ∧
    validate_json [("cpu", ⟨1, 1, 1, 0⟩)] [("foo", 3)]
      [("min", 40), ("max", 100)] ≠ Except.ok ()) :=
  ⟨by simp [List.lookup], C8_amended.1 _ _ _ (Or.inl (by simp [List.lookup]))⟩

/-- C9 counterexample: a file consisting of a single 50 MiB line reaches
the size threshold, but `_trim_file` returns a file of at most one line
unchanged, so the post-trim line count is 1, not
`max(2, floor(0.8 * 1)) = 2`. -/
theorem C9_counterexample :
    fileSizeBytes [String.mk (List.replicate 52428800 'a')] =
      CSV_MAX_FILE_SIZE_MB * 1024 * 1024 ∧
    (check_and_trim_file [String.mk (List.replicate 52428800 'a')]).length = 1 ∧
    max 2 (1 * 4 / 5) = 2 := by
  have hsize : fileSizeBytes [String.mk (List.replicate 52428800 'a')] = 52428800 := by
    rw [fileSizeBytes, List.map_cons, List.map_nil, String.length_mk,
      List.length_replicate, List.sum_cons, List.sum_nil]
    omega
  have htrim : ∀ s : String, trim_file [s] = [s] := fun s => rfl
  refine ⟨by rw [hsize]; norm_num [CSV_MAX_FILE_SIZE_MB], ?_, by norm_num⟩
  rw [check_and_trim_file, hsize, if_neg (by norm_num [CSV_MAX_FILE_SIZE_MB]),
    htrim, List.length_singleton]

/-- C9 amended: for a file of at least two lines whose size is at least
50 MiB, `_check_and_trim_file` rewrites it so that the line count equals
`max(2, floor(0.8 * pre_trim_lines))`, the first line is the original
header, and the retained data rows are the newest rows (a suffix of the
original file); a file of at most one line is left unchanged. -/
theorem C9_amended (lines : List String)
    (hlen : 2 ≤ lines.length)
    (hsize : CSV_MAX_FILE_SIZE_MB * 1024 * 1024 ≤ fileSizeBytes lines) :
    (check_and_trim_file lines).length = max 2 (lines.length * 4 / 5) ∧
    (check_and_trim_file lines).head? = lines.head? ∧
    List.IsSuffix ((check_and_trim_file lines).drop 1) lines := by
  have hnotlt : ¬ fileSizeBytes lines < CSV_MAX_FILE_SIZE_MB * 1024 * 1024 :=
    not_lt.mpr hsize
  rcases lines with _ | ⟨header, rest⟩
  · simp at hlen
  · have h45 : (header :: rest).length * 4 / 5 ≤ (header :: rest).length := by
      calc (header :: rest).length * 4 / 5
          ≤ (header :: rest).length * 5 / 5 :=
            Nat.div_le_div_right (Nat.mul_le_mul_left _ (by norm_num))
        _ = (header :: rest).length := Nat.mul_div_cancel _ (by norm_num)
    have hct : check_and_trim_file (header :: rest) = trim_file (header :: rest) := by
      rw [check_and_trim_file, if_neg hnotlt]
    have hnot1 : ¬ (header :: rest).length ≤ 1 := by
      simp only [List.length_cons] at hlen ⊢
      omega
    have hpos : max 2 ((header :: rest).length * 4 / 5) - 1 > 0 := by
      omega
    have htr : trim_file (header :: rest) =
        header :: (header :: rest).drop
          ((header :: rest).length - (max 2 ((header :: rest).length * 4 / 5) - 1)) := by
      simp only [trim_file, if_neg hnot1, if_pos hpos]
    rw [hct, htr]
    refine ⟨?_, rfl, ?_⟩
    · simp only [List.length_cons, List.length_drop] at *
      omega
    · simp only [List.drop_one, List.tail_cons]
      exact List.drop_suffix _ _

/-- C9 witness: a two-line file over the size threshold trims to two
lines with the header preserved. -/
theorem C9_amended_witness :
    (check_and_trim_file [String.mk (List.replicate 52428800 'a'), "x"]).length =
      max 2 ([String.mk (List.replicate 52428800 'a'), "x"].length * 4 / 5) ∧
    (check_and_trim_file [String.mk (List.replicate 52428800 'a'), "x"]).head? =
      [String.mk (List.replicate 52428800 'a'), "x"].head? ∧
    List.IsSuffix
      ((check_and_trim_file [String.mk (List.replicate 52428800 'a'), "x"]).drop 1)
      [String.mk (List.replicate 52428800 'a'), "x"] :=
  C9_amended _ (Nat.le_refl 2)
    (by
      have hsz : fileSizeBytes [String.mk (List.replicate 52428800 'a'), "x"] =
          52428801 := by
        rw [fileSizeBytes, List.map_cons, List.map_cons, List.map_nil,
          String.length_mk, List.length_replicate, List.sum_cons, List.sum_cons,
          List.sum_nil, show ("x").length = 1 from rfl]
        omega
      rw [hsz]
      norm_num [CSV_MAX_FILE_SIZE_MB])

/-- Predicate for thermals lacking the `is_controlled_by_pid`
attribute (those that trigger a warning). -/
def lacksAttr (t : GThermal) : Bool :=
  match t.attr with
  | PidAttr.noAttr => true
  | _ => false

/-- Helper: membership across `addToGroup`. -/
theorem addToGroup_mem (d : String) (t x : GThermal) :
    ∀ groups : List (String × List GThermal),
      (∃ g ∈ addToGroup groups d t, x ∈ g.2) ↔
        (∃ g ∈ groups, x ∈ g.2) ∨ x = t := by
  intro groups
  induction groups with
  | nil => simp [addToGroup]
  | cons p rest ih =>
    rcases p with ⟨d2, ts2⟩
    by_cases hd : d2 = d
    · subst hd
      simp [addToGroup, List.mem_append]
      constructor
      · rintro (⟨h | h⟩ | ⟨g, hg, hx⟩)
        · exact Or.inl (Or.inl h)
        · exact Or.inr h
        · exact Or.inl (Or.inr ⟨g, hg, hx⟩)
      · rintro (⟨h | ⟨g, hg, hx⟩⟩ | h)
        · exact Or.inl (Or.inl h)
        · exact Or.inr ⟨g, hg, hx⟩
        · exact Or.inl (Or.inr h)
    · simp only [addToGroup, if_neg hd]
      constructor
      · rintro ⟨g, hg, hx⟩
        rcases List.mem_cons.mp hg with rfl | hg2
        · exact Or.inl ⟨_, List.mem_cons_self _ _, hx⟩
        · rcases ih.mp ⟨g, hg2, hx⟩ with ⟨g2, hg3, hx2⟩ | h
          · exact Or.inl ⟨g2, List.mem_cons_of_mem _ hg3, hx2⟩
          · exact Or.inr h
      · rintro (⟨g, hg, hx⟩ | h)
        · rcases List.mem_cons.mp hg with rfl | hg2
          · exact ⟨_, List.mem_cons_self _ _, hx⟩
          · rcases ih.mpr (Or.inl ⟨g, hg2, hx⟩) with ⟨g2, hg3, hx2⟩
            exact ⟨g2, List.mem_cons_of_mem _ hg3, hx2⟩
        · rcases ih.mpr (Or.inr h) with ⟨g2, hg3, hx2⟩
          exact ⟨g2, List.mem_cons_of_mem _ hg3, hx2⟩

/-- Helper: `addToGroup` never produces an empty grouping. -/
theorem addToGroup_ne_nil (d : String) (t : GThermal) :
    ∀ groups : List (String × List GThermal), addToGroup groups d t ≠ [] := by
  intro groups
  cases groups with
  | nil => simp [addToGroup]
  | cons p rest =>
    rcases p with ⟨d2, ts2⟩
    by_cases hd : d2 = d
    · simp [addToGroup, hd]
    · simp [addToGroup, hd]

/-- Helper: `addToGroup` keeps every per-domain list nonempty. -/
theorem addToGroup_entries_ne_nil (d : String) (t : GThermal) :
    ∀ groups : List (String × List GThermal),
      (∀ g ∈ groups, g.2 ≠ []) →
      ∀ g ∈ addToGroup groups d t, g.2 ≠ [] := by
  intro groups
  induction groups with
  | nil =>
    intro _ g hg
    simp only [addToGroup, List.mem_singleton] at hg
    subst hg
    simp
  | cons p rest ih =>
    intro h g hg
    rcases p with ⟨d2, ts2⟩
    by_cases hd : d2 = d
    · subst hd
      simp only [addToGroup, if_pos rfl] at hg
      rcases List.mem_cons.mp hg with rfl | hg2
      · simp
      · exact h g (List.mem_cons_of_mem _ hg2)
    · simp only [addToGroup, if_neg hd] at hg
      rcases List.mem_cons.mp hg with rfl | hg2
      · exact h _ (List.mem_cons_self _ _)
      · exact ih (fun g2 hg2 => h g2 (List.mem_cons_of_mem _ hg2)) g hg2

/-- Helper: full characterisation of the grouping loop of
`_group_thermals_by_domain`, generalised over the accumulator. -/
theorem groupLoop_spec (configured : List String) (ts : List GThermal) :
    ∀ groups : List (String × List GThermal),
      (groupLoop configured ts groups).1 =
        (ts.filter lacksAttr).map warnText ∧
      ((groupLoop configured ts groups).2 = [] ↔
        groups = [] ∧ ∀ t ∈ ts, mapsToConfigured configured t = false) ∧
      (∀ x : GThermal,
        (∃ g ∈ (groupLoop configured ts groups).2, x ∈ g.2) ↔
          (∃ g ∈ groups, x ∈ g.2) ∨
            (x ∈ ts ∧ mapsToConfigured configured x = true)) ∧
      ((∀ g ∈ groups, g.2 ≠ []) →
        ∀ g ∈ (groupLoop configured ts groups).2, g.2 ≠ []) := by
  induction ts with
  | nil =>
    intro groups
    refine ⟨rfl, by simp [groupLoop], ?_, ?_⟩
    · intro x
      simp [groupLoop]
    · intro h g hg
      simp only [groupLoop] at hg
      exact h g hg
  | cons t rest ih =>
    intro groups
    rcases hattr : t.attr with _ | _ | d
    · -- noAttr: warn and continue with the same groups
      have hmaps : mapsToConfigured configured t = false := by
        simp [mapsToConfigured, hattr]
      have hred : groupLoop configured (t :: rest) groups =
          (warnText t :: (groupLoop configured rest groups).1,
            (groupLoop configured rest groups).2) := by
        simp [groupLoop, hattr]
      obtain ⟨w, e, m, n⟩ := ih groups
      refine ⟨?_, ?_, ?_, ?_⟩
      · rw [hred]
        simp [List.filter_cons, lacksAttr, hattr, w]
      · rw [hred]
        simp only [e]
        constructor
        · rintro ⟨h1, h2⟩
          refine ⟨h1, ?_⟩
          intro t2 ht2
          rcases List.mem_cons.mp ht2 with rfl | ht3
          · exact hmaps
          · exact h2 t2 ht3
        · rintro ⟨h1, h2⟩
          exact ⟨h1, fun t2 ht2 => h2 t2 (List.mem_cons_of_mem _ ht2)⟩
      · intro x
        rw [hred]
        simp only
        rw [m x]
        constructor
        · rintro (h | ⟨h1, h2⟩)
          · exact Or.inl h
          · exact Or.inr ⟨List.mem_cons_of_mem _ h1, h2⟩
        · rintro (h | ⟨h1, h2⟩)
          · exact Or.inl h
          · rcases List.mem_cons.mp h1 with rfl | h3
            · rw [hmaps] at h2
              exact absurd h2 (by simp)
            · exact Or.inr ⟨h3, h2⟩
      · intro h
        rw [hred]
        exact n h
    · -- notControlled: skipped silently
      have hmaps : mapsToConfigured configured t = false := by
        simp [mapsToConfigured, hattr]
      have hred : groupLoop configured (t :: rest) groups =
          groupLoop configured rest groups := by
        simp [groupLoop, hattr]
      obtain ⟨w, e, m, n⟩ := ih groups
      refine ⟨?_, ?_, ?_, ?_⟩
      · rw [hred, w]
        simp [List.filter_cons, lacksAttr, hattr]
      · rw [hred]
        simp only [e]
        constructor
        · rintro ⟨h1, h2⟩
          refine ⟨h1, ?_⟩
          intro t2 ht2
          rcases List.mem_cons.mp ht2 with rfl | ht3
          · exact hmaps
          · exact h2 t2 ht3
        · rintro ⟨h1, h2⟩
          exact ⟨h1, fun t2 ht2 => h2 t2 (List.mem_cons_of_mem _ ht2)⟩
      · intro x
        rw [hred, m x]
        constructor
        · rintro (h | ⟨h1, h2⟩)
          · exact Or.inl h
          · exact Or.inr ⟨List.mem_cons_of_mem _ h1, h2⟩
        · rintro (h | ⟨h1, h2⟩)
          · exact Or.inl h
          · rcases List.mem_cons.mp h1 with rfl | h3
            · rw [hmaps] at h2
              exact absurd h2 (by simp)
            · exact Or.inr ⟨h3, h2⟩
      · intro h
        rw [hred]
        exact n h
    · rcases d with _ | dn
      · -- controlled None: domain is falsy, skipped silently
        have hmaps : mapsToConfigured configured t = false := by
          simp [mapsToConfigured, hattr]
        have hred : groupLoop configured (t :: rest) groups =
            groupLoop configured rest groups := by
          simp [groupLoop, hattr]
        obtain ⟨w, e, m, n⟩ := ih groups
        refine ⟨?_, ?_, ?_, ?_⟩
        · rw [hred, w]
          simp [List.filter_cons, lacksAttr, hattr]
        · rw [hred]
          simp only [e]
          constructor
          · rintro ⟨h1, h2⟩
            refine ⟨h1, ?_⟩
            intro t2 ht2
            rcases List.mem_cons.mp ht2 with rfl | ht3
            · exact hmaps
            · exact h2 t2 ht3
          · rintro ⟨h1, h2⟩
            exact ⟨h1, fun t2 ht2 => h2 t2 (List.mem_cons_of_mem _ ht2)⟩
        · intro x
          rw [hred, m x]
          constructor
          · rintro (h | ⟨h1, h2⟩)
            · exact Or.inl h
            · exact Or.inr ⟨List.mem_cons_of_mem _ h1, h2⟩
          · rintro (h | ⟨h1, h2⟩)
            · exact Or.inl h
            · rcases List.mem_cons.mp h1 with rfl | h3
              · rw [hmaps] at h2
                exact absurd h2 (by simp)
              · exact Or.inr ⟨h3, h2⟩
        · intro h
          rw [hred]
          exact n h
      · -- controlled (some dn)
        by_cases hc : dn ≠ "" ∧ dn ∈ configured
        · -- added to its group
          have hmaps : mapsToConfigured configured t = true := by
            simp only [mapsToConfigured, hattr]
            simp [hc.1, hc.2]
          have hred : groupLoop configured (t :: rest) groups =
              groupLoop configured rest (addToGroup groups dn t) := by
            simp [groupLoop, hattr, hc]
          obtain ⟨w, e, m, n⟩ := ih (addToGroup groups dn t)
          refine ⟨?_, ?_, ?_, ?_⟩
          · rw [hred, w]
            simp [List.filter_cons, lacksAttr, hattr]
          · rw [hred]
            simp only [e]
            constructor
            · rintro ⟨h1, -⟩
              exact absurd h1 (addToGroup_ne_nil dn t groups)
            · rintro ⟨-, h2⟩
              have := h2 t (List.mem_cons_self _ _)
              rw [hmaps] at this
              exact absurd this (by simp)
          · intro x
            rw [hred, m x, addToGroup_mem dn t x groups]
            constructor
            · rintro ((h | rfl) | ⟨h1, h2⟩)
              · exact Or.inl h
              · exact Or.inr ⟨List.mem_cons_self _ _, hmaps⟩
              · exact Or.inr ⟨List.mem_cons_of_mem _ h1, h2⟩
            · rintro (h | ⟨h1, h2⟩)
              · exact Or.inl (Or.inl h)
              · rcases List.mem_cons.mp h1 with rfl | h3
                · exact Or.inl (Or.inr rfl)
                · exact Or.inr ⟨h3, h2⟩
          · intro h
            rw [hred]
            exact n (addToGroup_entries_ne_nil dn t groups h)
        · -- domain falsy or unconfigured: skipped silently
          have hmaps : mapsToConfigured configured t = false := by
            simp only [mapsToConfigured, hattr]
            rcases not_and_or.mp hc with h | h
            · simp [not_not.mp h]
            · simp [h]
          have hred : groupLoop configured (t :: rest) groups =
              groupLoop configured rest groups := by
            simp [groupLoop, hattr, hc]
          obtain ⟨w, e, m, n⟩ := ih groups
          refine ⟨?_, ?_, ?_, ?_⟩
          · rw [hred, w]
            simp [List.filter_cons, lacksAttr, hattr]
          · rw [hred]
            simp only [e]
            constructor
            · rintro ⟨h1, h2⟩
              refine ⟨h1, ?_⟩
              intro t2 ht2
              rcases List.mem_cons.mp ht2 with rfl | ht3
              · exact hmaps
              · exact h2 t2 ht3
            · rintro ⟨h1, h2⟩
              exact ⟨h1, fun t2 ht2 => h2 t2 (List.mem_cons_of_mem _ ht2)⟩
          · intro x
            rw [hred, m x]
            constructor
            · rintro (h | ⟨h1, h2⟩)
              · exact Or.inl h
              · exact Or.inr ⟨List.mem_cons_of_mem _ h1, h2⟩
            · rintro (h | ⟨h1, h2⟩)
              · exact Or.inl h
              · rcases List.mem_cons.mp h1 with rfl | h3
                · rw [hmaps] at h2
                  exact absurd h2 (by simp)
                · exact Or.inr ⟨h3, h2⟩
          · intro h
            rw [hred]
            exact n h

/-- C10: a sensor that is PID-controlled but whose domain has no
configured controller is silently excluded from the grouping — the
warnings are exactly those for sensors lacking the capability attribute,
the excluded sensor appears in no group — and the grouping raises
exactly when no sensor at all maps to a configured domain. -/
theorem C10_orphan_domain_silent (configured : List String)
    (thermals : List GThermal) :
    ((group_thermals_by_domain configured thermals).1 =
      (thermals.filter lacksAttr).map warnText) ∧
    (∀ t ∈ thermals, ∀ d, t.attr = PidAttr.controlled (some d) →
      (d = "" ∨ d ∉ configured) →
      ∀ gs, (group_thermals_by_domain configured thermals).2 = Except.ok gs →
        ∀ g ∈ gs, t ∉ g.2) ∧
    ((group_thermals_by_domain configured thermals).2 =
        Except.error "No thermals available for PID control" ↔
      ∀ t ∈ thermals, mapsToConfigured configured t = false) ∧
    (∀ t ∈ thermals, mapsToConfigured configured t = true →
      ∃ gs, (group_thermals_by_domain configured thermals).2 = Except.ok gs) := by
  obtain ⟨w, e, m, n⟩ := groupLoop_spec configured thermals []
  have hne : ∀ g ∈ (groupLoop configured thermals []).2, g.2 ≠ [] :=
    n (by simp)
  have hany : (groupLoop configured thermals []).2.any
      (fun g => g.2.isEmpty) = false := by
    rw [List.any_eq_false]
    intro g hg
    simp only [List.isEmpty_iff]
    exact hne g hg
  have hfst : (group_thermals_by_domain configured thermals).1 =
      (groupLoop configured thermals []).1 := rfl
  have hsnd : (group_thermals_by_domain configured thermals).2 =
      (if (groupLoop configured thermals []).2.isEmpty then
        Except.error "No thermals available for PID control"
      else if (groupLoop configured thermals []).2.any (fun g => g.2.isEmpty) then
        Except.error "Domain has no thermals"
      else Except.ok (groupLoop configured thermals []).2) := rfl
  by_cases hnil : (groupLoop configured thermals []).2 = []
  · have hres : (group_thermals_by_domain configured thermals).2 =
        Except.error "No thermals available for PID control" := by
      rw [hsnd, hnil]
      rfl
    refine ⟨by rw [hfst, w], ?_, ?_, ?_⟩
    · intro t ht d hattr hd gs hok
      rw [hres] at hok
      exact absurd hok (by simp)
    · rw [hres]
      simp only [true_iff]
      exact (e.mp hnil).2
    · intro t ht hmaps
      obtain ⟨g, hg, hx⟩ := (m t).mpr (Or.inr ⟨ht, hmaps⟩)
      rw [hnil] at hg
      exact absurd hg (by simp)
  · have hres : (group_thermals_by_domain configured thermals).2 =
        Except.ok (groupLoop configured thermals []).2 := by
      rw [hsnd, if_neg (by simpa [List.isEmpty_iff] using hnil), hany]
      rfl
    refine ⟨by rw [hfst, w], ?_, ?_, ?_⟩
    · intro t ht d hattr hd gs hok g hg hmem
      rw [hres] at hok
      have hgs : gs = (groupLoop configured thermals []).2 := by
        have := hok.symm
        simpa using this
      subst hgs
      have hmaps : mapsToConfigured configured t = true :=
        (((m t).mp ⟨g, hg, hmem⟩).resolve_left (by simp)).2
      have hfalse : mapsToConfigured configured t = false := by
        simp only [mapsToConfigured, hattr]
        rcases hd with rfl | hd
        · simp
        · simp [hd]
      rw [hmaps] at hfalse
      exact absurd hfalse (by simp)
    · rw [hres]
      constructor
      · intro h
        exact absurd h (by simp)
      · intro h
        exact absurd (e.mpr ⟨rfl, h⟩) hnil
    · intro t ht hmaps
      exact ⟨(groupLoop configured thermals []).2, hres⟩

/-- C10 witness: a controlled sensor with unconfigured domain "gpu" is
absent from the "cpu" group while the grouping still succeeds. -/
theorem C10_witness :
    (⟨"orphan", PidAttr.controlled (some "gpu")⟩ : GThermal) ∉
      (("cpu", [(⟨"good", PidAttr.controlled (some "cpu")⟩ : GThermal)])).2 :=
  (C10_orphan_domain_silent ["cpu"]
      [⟨"orphan", PidAttr.controlled (some "gpu")⟩,
       ⟨"good", PidAttr.controlled (some "cpu")⟩]).2.1
    ⟨"orphan", PidAttr.controlled (some "gpu")⟩ (by simp) "gpu" rfl
    (by simp)
    [("cpu", [⟨"good", PidAttr.controlled (some "cpu")⟩])] rfl
    ("cpu", [⟨"good", PidAttr.controlled (some "cpu")⟩]) (by simp)
